import Mathlib

/-!
Verification of `custom_components/ai_aircon_manager/optimizer.py`
(`AirconOptimizer`) against its natural-language specification.

Shallow embedding conventions:
* Python floats are modelled as `ℚ` (all arithmetic in the optimizer is
  exact on the rationals appearing in the spec's examples).
* Python dicts keyed by room name are modelled as insertion-ordered
  association lists `List (String × _)`.
* `None`-able readings are `Option ℚ`.
* The mutable per-instance counters (`_last_error`, `_error_count`,
  `_last_recommendations`) are threaded explicitly as an `OptState`.
* External effects (HTTP call to the advisory service, service calls to
  actuators) are inputs: the advisory call outcome is an
  `Except String _` argument, actuator commands are returned values.
-/

/-- Per-room snapshot built every cycle by `_collect_room_states`
(optimizer.py lines 594-602).  `current_temperature` is `none` when the
sensor is missing/unavailable/non-numeric; `target_temperature` is always
set by the collector but is dict-read with a `None` guard downstream, so
it is kept optional. -/
structure RoomState where
  current_temperature : Option ℚ
  target_temperature : Option ℚ
  cover_position : Int
  current_humidity : Option ℚ
deriving DecidableEq, Repr

/-- The constructor-time configuration fields of `AirconOptimizer.__init__`
(optimizer.py lines 52-83) that the verified operations consult. -/
structure OptimizerConfig where
  target_temperature : ℚ
  temperature_deadband : ℚ
  hvac_mode : String
  ac_turn_on_threshold : ℚ
  ac_turn_off_threshold : ℚ
  main_fan_high_threshold : ℚ
  main_fan_medium_threshold : ℚ
  main_climate_entity : Option String
  enable_humidity_control : Bool
  enable_scheduling : Bool
  auto_control_ac_temperature : Bool
deriving DecidableEq, Repr

/-- The valid temperature readings of a room-state map, in insertion
order, as built by the list comprehensions at optimizer.py lines
1017-1021 / 1211-1215. -/
def validTemps (states : List (String × RoomState)) : List ℚ :=
  states.filterMap (fun p => p.2.current_temperature)

/-- The "extract effective target from room_states" preamble shared by
`_check_if_ac_needed`, `_determine_and_set_main_fan_speed` and
`_build_optimization_prompt` (optimizer.py lines 1204-1209): the first
room's `target_temperature` if present and non-`None`, else the
configured base target. -/
def effectiveTarget (cfg : OptimizerConfig) (states : List (String × RoomState)) : ℚ :=
  match states.head? with
  | some p => p.2.target_temperature.getD cfg.target_temperature
  | none => cfg.target_temperature

/-- `_check_if_ac_needed` (optimizer.py lines 1195-1300): hysteresis
decision whether the main unit should run, given whether it currently
runs.  Pure translation of the `cool` / `heat` / `auto` branches. -/
def check_if_ac_needed (cfg : OptimizerConfig) (states : List (String × RoomState))
    (ac_currently_on : Bool) : Bool :=
  let t := effectiveTarget cfg states
  match validTemps states with
  | [] => false
  | t0 :: ts =>
      let temps := t0 :: ts
      let avg := temps.sum / (temps.length : ℚ)
      let diff := avg - t
      if cfg.hvac_mode = "cool" then
        if ac_currently_on then
          let mx := ts.foldl max t0
          !(decide (diff ≤ -cfg.ac_turn_off_threshold) && decide (mx ≤ t))
        else
          decide (cfg.ac_turn_on_threshold ≤ diff)
      else if cfg.hvac_mode = "heat" then
        if ac_currently_on then
          let mn := ts.foldl min t0
          !(decide (cfg.ac_turn_off_threshold ≤ diff) && decide (t ≤ mn))
        else
          decide (diff ≤ -cfg.ac_turn_on_threshold)
      else
        decide (cfg.temperature_deadband < |diff|)

/-- `_check_rooms_stable` (optimizer.py lines 1165-1193): `False` on an
empty map; otherwise `False` as soon as a room misses its current or
target temperature or lies outside the deadband, `True` when every room
is within the deadband. -/
def check_rooms_stable (cfg : OptimizerConfig) (states : List (String × RoomState)) : Bool :=
  match states with
  | [] => false
  | _ =>
      states.all (fun p =>
        match p.2.current_temperature, p.2.target_temperature with
        | some c, some t => decide (|c - t| ≤ cfg.temperature_deadband)
        | _, _ => false)

/-- The pure fan-tier computation of `_determine_and_set_main_fan_speed`
(optimizer.py lines 1005-1120); the trailing actuation (lines 1121-1163)
returns the same tier string unchanged, so it is elided. -/
def determine_main_fan_speed (cfg : OptimizerConfig)
    (states : List (String × RoomState)) : String :=
  let t := effectiveTarget cfg states
  match validTemps states with
  | [] => "medium"
  | t0 :: ts =>
      let temps := t0 :: ts
      let avg_temp := temps.sum / (temps.length : ℚ)
      let max_temp := ts.foldl max t0
      let min_temp := ts.foldl min t0
      let temp_variance := max_temp - min_temp
      let avg_temp_diff := avg_temp - t
      let avg_deviation := |avg_temp_diff|
      let max_temp_diff := max_temp - t
      let min_temp_diff := min_temp - t
      let max_deviation := max |max_temp_diff| |min_temp_diff|
      if temp_variance ≤ 1 ∧ avg_deviation ≤ 1/2 then "low"
      else if cfg.hvac_mode = "cool" then
        if cfg.main_fan_high_threshold ≤ avg_temp_diff ∨ (3 ≤ max_temp_diff ∧ 2 ≤ temp_variance) then
          "high"
        else if avg_temp_diff ≤ -(1/2) ∨ (avg_temp_diff < cfg.main_fan_medium_threshold ∧ max_temp_diff < 2) then
          "low"
        else "medium"
      else if cfg.hvac_mode = "heat" then
        if avg_temp_diff ≤ -cfg.main_fan_high_threshold ∨ (min_temp_diff ≤ -3 ∧ 2 ≤ temp_variance) then
          "high"
        else if (1/2 : ℚ) ≤ avg_temp_diff ∨ (-cfg.main_fan_medium_threshold < avg_temp_diff ∧ -2 < min_temp_diff) then
          "low"
        else "medium"
      else
        if 3 ≤ max_deviation ∨ 3 ≤ temp_variance then "high" else "medium"

/-! ## Sensor reading normalization (`_collect_room_states`) -/

/-- Outcome of reading one entity attribute/state from the host registry,
as classified by `_collect_room_states` (optimizer.py lines 486-563):
the entity (or attribute) is absent; its value is one of the sentinel
strings `"unknown"/"unavailable"/"none"/None`; its value fails numeric
conversion (`float`/`int` raises); or it is a number. -/
inductive Reading where
  | missing
  | sentinel
  | nonNumeric
  | val (q : ℚ)
deriving DecidableEq, Repr

/-- Python `int(x)` on a float: truncation toward zero. -/
def truncInt (q : ℚ) : Int :=
  if 0 ≤ q then ⌊q⌋ else ⌈q⌉

/-- The unit-conversion step of `_collect_room_states` (optimizer.py
lines 502-524): Fahrenheit units convert via `(v-32)*5/9`; every other
unit (recognised Celsius or unknown, the latter warned about) leaves the
value unchanged. -/
def convert_temperature_unit (unit : String) (v : ℚ) : ℚ :=
  if unit = "°F" ∨ unit = "fahrenheit" ∨ unit = "F" then (v - 32) * 5 / 9 else v

/-- Temperature acquisition for one room (optimizer.py lines 486-546):
a numeric state is unit-normalized, everything else degrades to "no
reading". -/
def read_temperature (r : Reading) (unit : String) : Option ℚ :=
  match r with
  | .val v => some (convert_temperature_unit unit v)
  | _ => none

/-- Cover-position acquisition for one room (optimizer.py lines
548-563): default `100`; replaced by `int(pos)` only when the cover
entity exists, exposes `current_position`, and the value is a
non-sentinel number (a conversion failure is caught and keeps the
default). -/
def read_cover_position (r : Reading) : Int :=
  match r with
  | .val p => truncInt p
  | _ => 100

/-- Humidity acquisition for one room (optimizer.py lines 565-592). -/
def read_humidity (r : Reading) : Option ℚ :=
  match r with
  | .val v => some v
  | _ => none

/-- One room's entry of the map built by `_collect_room_states`
(optimizer.py lines 594-602), given the raw readings of its three
sensors and the cycle's effective target. -/
def collect_room_state (target : ℚ) (tempR : Reading) (tempUnit : String)
    (coverR : Reading) (humR : Reading) : RoomState :=
  { current_temperature := read_temperature tempR tempUnit
    target_temperature := some target
    cover_position := read_cover_position coverR
    current_humidity := read_humidity humR }

/-! ## Schedule resolver (`_get_active_schedule`) -/

/-- One configured schedule dict (spec §3; keys `CONF_SCHEDULE_*`). -/
structure Schedule where
  enabled : Bool
  days : List String
  start_time : Option String
  end_time : Option String
  target_temp : Option ℚ
deriving DecidableEq, Repr

/-- Python `int(str)` on a plain decimal digit string (the `"HH"` /
`"MM"` fields of a schedule time); anything that is not a non-empty
digit string models the `ValueError` path. -/
def natOfDigits? (l : List Char) : Option Nat :=
  if l ≠ [] ∧ l.all Char.isDigit then
    some (l.foldl (fun n c => n * 10 + (c.toNat - 48)) 0)
  else none

/-- Parse an `"HH:MM"` string the way lines 161-164 of optimizer.py do
(`map(int, s.split(":"))` unpacked into exactly two parts, then
`datetime.time(h, m)` which rejects out-of-range fields); `none` models
the `ValueError` path caught at line 177. -/
def parseTimeStr (s : String) : Option Nat :=
  match s.data.splitOn ':' with
  | [hs, ms] =>
      match natOfDigits? hs, natOfDigits? ms with
      | some h, some m => if h < 24 && m < 60 then some (h * 60 + m) else none
      | _, _ => none
  | _ => none

/-- Day-set membership test of `_get_active_schedule` (optimizer.py
lines 137-146). -/
def dayMatch (schedule_days : List String) (current_day : String) : Bool :=
  if schedule_days.contains "all" then true
  else if schedule_days.contains "weekdays"
      && ["monday", "tuesday", "wednesday", "thursday", "friday"].contains current_day then true
  else if schedule_days.contains "weekends"
      && ["saturday", "sunday"].contains current_day then true
  else schedule_days.contains current_day

/-- Time-window membership test of `_get_active_schedule` (optimizer.py
lines 166-176), times in minutes since midnight. -/
def timeMatch (start_t end_t now : Nat) : Bool :=
  if start_t ≤ end_t then decide (start_t ≤ now) && decide (now ≤ end_t)
  else decide (start_t ≤ now) || decide (now ≤ end_t)

/-- `_get_active_schedule` as the source actually executes
(optimizer.py lines 116-181).  The names `CONF_SCHEDULE_ENABLED` and
`CONF_SCHEDULE_DAYS` are referenced at lines 127 and 131 but the
`from .const import ...` statement that binds them as function locals
sits at line 135, *after* those references inside the same loop body;
so whenever scheduling is enabled and the schedule list is non-empty the
first loop iteration raises `UnboundLocalError`, modelled as `.error`.
With scheduling disabled or no schedules the guard at line 118 returns
`None` before the loop. -/
def get_active_schedule (enable_scheduling : Bool) (schedules : List Schedule)
    (_current_day : String) (_now : Nat) : Except String (Option Schedule) :=
  if !enable_scheduling || schedules.isEmpty then .ok none
  else .error "UnboundLocalError: local variable CONF_SCHEDULE_ENABLED referenced before assignment"

/-- The schedule-resolution loop of `_get_active_schedule` as evidently
intended (and as the spec describes it): the same lines 126-181 with the
line-135 import hoisted above its uses.  Skips disabled schedules,
schedules with an empty day list, missing day/time matches, missing
time strings, and malformed time strings; returns the first match. -/
def get_active_schedule_intended (enable_scheduling : Bool) (schedules : List Schedule)
    (current_day : String) (now : Nat) : Option Schedule :=
  if !enable_scheduling || schedules.isEmpty then none
  else
    schedules.find? (fun s =>
      s.enabled
      && !s.days.isEmpty
      && dayMatch s.days current_day
      && (match s.start_time, s.end_time with
          | some st, some et =>
              match parseTimeStr st, parseTimeStr et with
              | some st', some et' => timeMatch st' et' now
              | _, _ => false
          | _, _ => false))

/-! ## Recommendation engine (`_parse_ai_response`, `_get_ai_recommendations`) -/

/-- The validated recommendation dict produced by `_parse_ai_response`
(optimizer.py lines 903-921): Python mixes room keys (int values),
`"ac_temperature"` (float value) and `"hvac_mode"` (string value) in a
single dict; here the three kinds of members are separated by type. -/
structure Recs where
  rooms : List (String × Int)
  ac_temperature : Option ℚ
  hvac_mode : Option String
deriving DecidableEq, Repr

/-- Python truthiness of the recommendations dict. -/
def Recs.isEmpty (r : Recs) : Bool :=
  r.rooms.isEmpty && r.ac_temperature.isNone && r.hvac_mode.isNone

/-- The empty dict `{}`. -/
def Recs.blank : Recs := ⟨[], none, none⟩

/-- The JSON object successfully extracted and decoded from the advisory
response text (optimizer.py lines 899-901), restricted to the schema the
prompt demands (§4.6): integer members (room fan speeds and
`ac_temperature`) plus an optional `"hvac_mode"` string member. -/
structure ParsedResp where
  fields : List (String × Int)
  hvac_mode_field : Option String
deriving DecidableEq, Repr

/-- The validation/clamping loop of `_parse_ai_response` (optimizer.py
lines 903-921): for each configured room name present in the response
clamp into [0,100]; clamp `ac_temperature` into [16,30] when present;
keep `hvac_mode` (lower-cased) only when it is one of the four valid
modes; everything else is dropped. -/
def validate_response (roomNames : List String) (p : ParsedResp) : Recs :=
  { rooms := roomNames.filterMap (fun r =>
      (p.fields.lookup r).map (fun v => (r, max 0 (min 100 v))))
    ac_temperature := (p.fields.lookup "ac_temperature").map
      (fun v => max 16 (min 30 (v : ℚ)))
    hvac_mode :=
      match p.hvac_mode_field with
      | some m =>
          let m' := m.toLower
          if m' = "cool" ∨ m' = "heat" ∨ m' = "dry" ∨ m' = "auto" then some m' else none
      | none => none }

/-- `_parse_ai_response` (optimizer.py lines 890-927) at the level of
the extraction outcome: when no JSON object could be extracted or
decoded from the text (`json_match` is `None`, `json.loads` raises, or a
value conversion raises — all caught at line 923), the function returns
`{}`; otherwise it returns the validated dict.  It never raises and
never touches the error counters or the cache. -/
def parse_ai_response (parsed : Option ParsedResp) (roomNames : List String) : Recs :=
  match parsed with
  | some p => validate_response roomNames p
  | none => Recs.blank

/-- The cross-cycle mutable error/cache state of the optimizer instance
(optimizer.py lines 86-93). -/
structure OptState where
  last_error : Option String
  error_count : Nat
  last_recommendations : Recs
deriving DecidableEq, Repr

/-- `_get_ai_recommendations` (optimizer.py lines 606-655).  The
advisory call outcome is an input: `.ok parsed` is a transport-level
success whose response text extracted/decoded to `parsed` (the parse
step itself never raises, see `parse_ai_response`); `.error e` is an
exception from the client call, which increments `_error_count`, records
`_last_error`, and falls back to the cached recommendations when the
cache is non-empty (empty dict otherwise). -/
def get_ai_recommendations (st : OptState) (roomNames : List String)
    (callResult : Except String (Option ParsedResp)) : Recs × OptState :=
  match callResult with
  | .ok parsed => (parse_ai_response parsed roomNames, st)
  | .error e =>
      let st' : OptState :=
        { st with last_error := some ("AI API Error: " ++ e),
                  error_count := st.error_count + 1 }
      if !st'.last_recommendations.isEmpty then (st'.last_recommendations, st')
      else (Recs.blank, st')

/-- The AI-invocation slice of `async_optimize` (optimizer.py lines
409-428), i.e. the branch in which the gate decided to run the advisory
call: fetch recommendations, then (line 419) reset `_last_error` and
`_error_count` whenever the returned dict is non-empty, then (line 424)
store the returned dict as the new cache.  Actuation (lines 412-416) is
elided on its success path (it only ever adds errors).  Returns the
`recommendations` value placed in the result record together with the
final mutable state, whose `last_error`/`error_count` are the values the
result record reports (lines 455-456). -/
def run_ai_cycle (st : OptState) (roomNames : List String)
    (callResult : Except String (Option ParsedResp)) : Recs × OptState :=
  let res := get_ai_recommendations st roomNames callResult
  let recs := res.1
  let st1 := res.2
  let st2 := if !recs.isEmpty then { st1 with last_error := none, error_count := 0 } else st1
  (recs, { st2 with last_recommendations := recs })

/-! ## HVAC-mode switching (`_set_hvac_mode`) -/

/-- The main climate entity's reported attributes consumed by
`_set_hvac_mode` (optimizer.py lines 1399-1415). -/
structure ClimateState where
  hvac_mode : Option String
  hvac_modes : List String
deriving DecidableEq, Repr

/-- `_set_hvac_mode` (optimizer.py lines 1392-1460) on its success path:
returns the updated optimizer configuration (line 1442 assigns
`self.hvac_mode = mode`) together with the `set_hvac_mode` service
command issued, or `none` when any guard returned early (no main
climate entity configured, entity not found, already in the requested
mode, or mode unsupported). -/
def set_hvac_mode (cfg : OptimizerConfig) (climate_state : Option ClimateState)
    (mode : String) : OptimizerConfig × Option String :=
  if cfg.main_climate_entity.isNone then (cfg, none)
  else
    match climate_state with
    | none => (cfg, none)
    | some cs =>
        if cs.hvac_mode = some mode then (cfg, none)
        else if !cs.hvac_modes.contains mode then (cfg, none)
        else ({ cfg with hvac_mode := mode }, some mode)

/-! ## Shared concrete instances for witnesses and counterexamples -/

/-- The configuration of the spec's §8 examples: target 22.0, deadband
0.5, cool mode, on/off thresholds 1.0/2.0, fan thresholds 2.5/1.0. -/
def cfgEx : OptimizerConfig :=
  { target_temperature := 22
    temperature_deadband := 1/2
    hvac_mode := "cool"
    ac_turn_on_threshold := 1
    ac_turn_off_threshold := 2
    main_fan_high_threshold := 5/2
    main_fan_medium_threshold := 1
    main_climate_entity := some "climate.main"
    enable_humidity_control := true
    enable_scheduling := true
    auto_control_ac_temperature := true }

/-- The cached recommendation set `{"A": 60}` of the spec's
cache-fallback example. -/
def cacheA60 : Recs := ⟨[("A", 60)], none, none⟩

/-- A room state with the given current temperature and target 22. -/
def roomAt (c : ℚ) : RoomState := ⟨some c, some 22, 100, none⟩

/-! ## Claims -/

/-- C1: the spec claims that a cycle whose advisory call raises, with a
cached set `{"A": 60}`, outputs `{"A": 60}` with `error_count`
incremented by exactly 1 and `last_error` recording the message, error
counters being reset only on a fresh successful cycle.  Evaluating the
code at that very scenario: `_get_ai_recommendations` does increment the
counter and record the error (first conjunct), but `async_optimize`'s
reset at lines 419-421 fires on *any* non-empty `recommendations` —
including the reused cache — so the cycle's reported `error_count` is 0
and `last_error` is `None` (second conjunct), contradicting the claim;
the code also contradicts its own comment at line 418 ("Reset error
tracking on successful optimization"). -/
theorem c1_cache_fallback_error_count_wiped :
    (get_ai_recommendations ⟨none, 0, cacheA60⟩ ["A"] (.error "timeout")).2.error_count = 1
    ∧ run_ai_cycle ⟨none, 0, cacheA60⟩ ["A"] (.error "timeout")
        = (cacheA60, ⟨none, 0, cacheA60⟩) := by
  exact ⟨rfl, rfl⟩

/-- C2, counterexample: on an advisory response whose parsing fails
(modelled by extraction outcome `none`, e.g. a response containing no
brace-delimited JSON object), with cache `{"A": 60}` and error count 0,
`_get_ai_recommendations` returns the empty dict — not the cached set —
and neither increments the error counter nor records an error message,
contradicting the claim. -/
theorem c2_parse_failure_counterexample :
    (get_ai_recommendations ⟨none, 0, cacheA60⟩ ["A"] (.ok none)).1 = Recs.blank
    ∧ Recs.blank ≠ cacheA60
    ∧ (get_ai_recommendations ⟨none, 0, cacheA60⟩ ["A"] (.ok none)).2.error_count = 0
    ∧ (get_ai_recommendations ⟨none, 0, cacheA60⟩ ["A"] (.ok none)).2.last_error = none := by
  refine ⟨rfl, by decide, rfl, rfl⟩

/-- C2, amended: a parse failure on the response text makes the engine
return the empty dict, leaving error counter, error message and cache
untouched; the increment-and-fall-back-to-cache behaviour applies only
when the advisory call itself raises, and then the empty dict is
returned exactly when no cache exists. -/
theorem c2_parse_failure_amended (st : OptState) (roomNames : List String) (e : String) :
    get_ai_recommendations st roomNames (.ok none) = (Recs.blank, st)
    ∧ (get_ai_recommendations st roomNames (.error e)).2.error_count = st.error_count + 1
    ∧ (get_ai_recommendations st roomNames (.error e)).2.last_error
        = some ("AI API Error: " ++ e)
    ∧ (get_ai_recommendations st roomNames (.error e)).1
        = (if st.last_recommendations.isEmpty then Recs.blank else st.last_recommendations) := by
  refine ⟨rfl, ?_, ?_, ?_⟩ <;>
    · simp only [get_ai_recommendations]
      by_cases h : st.last_recommendations.isEmpty <;> simp [h]

/-- A schedule enabled on all days from 08:00 to 22:00. -/
def schedEx : Schedule := ⟨true, ["all"], some "08:00", some "22:00", some 21⟩

/-- C3: the spec claims the resolver returns the first enabled matching
schedule and `None` otherwise, never failing the cycle.  In fact, with
scheduling enabled and any non-empty schedule list, lines 127/131 of
`_get_active_schedule` reference `CONF_SCHEDULE_ENABLED` /
`CONF_SCHEDULE_DAYS` before the `from .const import` at line 135 binds
them as function locals, so the first loop iteration raises
`UnboundLocalError`; the exception propagates out of `async_optimize`
(the call at line 257 is unguarded) and kills the cycle.  At the
concrete input — one all-days 08:00-22:00 schedule, Monday noon — the
code as executed errors, while the evidently-intended loop body (the
same lines with the import hoisted) returns that schedule, as the
claim describes. -/
theorem c3_scheduler_raises_unbound_local :
    get_active_schedule true [schedEx] "monday" 720
      = .error "UnboundLocalError: local variable CONF_SCHEDULE_ENABLED referenced before assignment"
    ∧ get_active_schedule_intended true [schedEx] "monday" 720 = some schedEx := by
  exact ⟨rfl, by decide⟩

/-- C4: in cool mode, with at least one valid reading, the unit-need
decision with the unit on returns `false` (turn off) iff the average
temperature is at most `target − off_threshold` and the maximum room
temperature is at most the target; with the unit off it returns `true`
(turn on) iff the average is at least `target + on_threshold`; and with
no valid readings it returns `false` regardless of unit state
(optimizer.py lines 1195-1259). -/
theorem c4_cool_hysteresis (cfg : OptimizerConfig) (states : List (String × RoomState))
    (hmode : cfg.hvac_mode = "cool") :
    (validTemps states = [] → ∀ b, check_if_ac_needed cfg states b = false) ∧
    ∀ t0 ts, validTemps states = t0 :: ts →
      (check_if_ac_needed cfg states true = false ↔
        ((t0 :: ts).sum / ((t0 :: ts).length : ℚ)
            ≤ effectiveTarget cfg states - cfg.ac_turn_off_threshold
          ∧ ts.foldl max t0 ≤ effectiveTarget cfg states))
      ∧ (check_if_ac_needed cfg states false = true ↔
          effectiveTarget cfg states + cfg.ac_turn_on_threshold
            ≤ (t0 :: ts).sum / ((t0 :: ts).length : ℚ)) := by
  constructor
  · intro h b
    simp [check_if_ac_needed, h]
  · intro t0 ts h
    constructor
    · simp only [check_if_ac_needed, h, hmode, if_pos rfl]
      rw [if_pos trivial, if_pos trivial]
      simp only [Bool.not_eq_false', Bool.and_eq_true, decide_eq_true_eq]
      constructor
      · rintro ⟨h1, h2⟩
        exact ⟨by linarith, h2⟩
      · rintro ⟨h1, h2⟩
        exact ⟨by linarith, h2⟩
    · simp only [check_if_ac_needed, h, hmode, if_pos rfl]
      rw [if_pos trivial, if_neg (by simp)]
      simp only [decide_eq_true_eq]
      constructor
      · intro h1
        linarith
      · intro h1
        linarith

/-- C4 witness: the spec's example — unit off, one room at 23.1 °C,
target 22.0, on_threshold 1.0 — turns the unit on. -/
theorem c4_cool_hysteresis_witness :
    check_if_ac_needed cfgEx [("a", roomAt (231/10))] false = true := by
  have h := (c4_cool_hysteresis cfgEx [("a", roomAt (231/10))] rfl).2 (231/10) []
    (by simp [validTemps, roomAt])
  exact h.2.mpr (by norm_num [effectiveTarget, cfgEx, roomAt])

/-- C5: the validated recommendation map contains exactly, for each
configured room name present in the parsed response, that room's value
clamped into [0,100] (membership iff, so no other room keys appear);
`ac_temperature`, when present, clamped into [16,30]; `hvac_mode`
retained only when (lower-cased) it is one of cool/heat/dry/auto; and
the spec's example `{"Living Room": 150, "Bedroom": -10,
"ac_temperature": 40}` validates to
`{"Living Room": 100, "Bedroom": 0, "ac_temperature": 30}`
(optimizer.py lines 890-927). -/
theorem c5_validation_clamps (roomNames : List String) (p : ParsedResp) :
    (∀ r v, (r, v) ∈ (validate_response roomNames p).rooms ↔
        (r ∈ roomNames ∧ ∃ x, p.fields.lookup r = some x ∧ v = max 0 (min 100 x))) ∧
    (∀ r v, (r, v) ∈ (validate_response roomNames p).rooms → 0 ≤ v ∧ v ≤ 100) ∧
    (validate_response roomNames p).ac_temperature
      = (p.fields.lookup "ac_temperature").map (fun x => max 16 (min 30 (x : ℚ))) ∧
    (∀ q, (validate_response roomNames p).ac_temperature = some q → 16 ≤ q ∧ q ≤ 30) ∧
    (∀ m, (validate_response roomNames p).hvac_mode = some m →
        m = "cool" ∨ m = "heat" ∨ m = "dry" ∨ m = "auto") ∧
    validate_response ["Living Room", "Bedroom"]
        ⟨[("Living Room", 150), ("Bedroom", -10), ("ac_temperature", 40)], none⟩
      = ⟨[("Living Room", 100), ("Bedroom", 0)], some 30, none⟩ := by
  refine ⟨?_, ?_, rfl, ?_, ?_, by decide⟩
  · intro r v
    simp only [validate_response, List.mem_filterMap, Option.map_eq_some']
    constructor
    · rintro ⟨r', hr', x, hx, heq⟩
      obtain ⟨rfl, rfl⟩ := Prod.mk.injEq .. ▸ heq
      exact ⟨hr', x, hx, rfl⟩
    · rintro ⟨hr, x, hx, rfl⟩
      exact ⟨r, hr, x, hx, rfl⟩
  · intro r v hv
    simp only [validate_response, List.mem_filterMap, Option.map_eq_some'] at hv
    obtain ⟨r', _, x, _, heq⟩ := hv
    obtain ⟨-, rfl⟩ := Prod.mk.injEq .. ▸ heq
    constructor
    · exact le_max_left 0 _
    · exact max_le (by norm_num) (min_le_left _ _)
  · intro q hq
    simp only [validate_response, Option.map_eq_some'] at hq
    obtain ⟨x, -, rfl⟩ := hq
    constructor
    · exact le_max_left 16 _
    · exact max_le (by norm_num) (min_le_left _ _)
  · intro m hm
    simp only [validate_response] at hm
    cases hmf : p.hvac_mode_field with
    | none => rw [hmf] at hm; cases hm
    | some s =>
        rw [hmf] at hm
        dsimp only at hm
        split at hm
        · cases hm
          assumption
        · cases hm

/-- C5 witness: a response `{"A": 60}` for configured room `"A"`
validates to a map containing `("A", 60)`. -/
theorem c5_validation_clamps_witness :
    ("A", 60) ∈ (validate_response ["A"] ⟨[("A", 60)], none⟩).rooms :=
  ((c5_validation_clamps ["A"] ⟨[("A", 60)], none⟩).1 "A" 60).mpr
    ⟨by decide, 60, by decide, by decide⟩

/-- Per-room body of the stability loop (optimizer.py lines 1170-1189)
as a proposition. -/
theorem stable_entry_iff (cfg : OptimizerConfig) (st : RoomState) :
    (match st.current_temperature, st.target_temperature with
      | some c, some t => decide (|c - t| ≤ cfg.temperature_deadband)
      | _, _ => false) = true ↔
    ∃ c t, st.current_temperature = some c ∧ st.target_temperature = some t ∧
      |c - t| ≤ cfg.temperature_deadband := by
  cases hc : st.current_temperature with
  | none => simp
  | some c =>
      cases ht : st.target_temperature with
      | none => simp
      | some t => simp

/-- C6, counterexample: the claim's iff — stability holds iff every
room has a valid reading within the deadband — fails at the empty
room-state map: every-room conditions hold vacuously, yet
`_check_rooms_stable` returns `False` (optimizer.py lines 1167-1168). -/
theorem c6_empty_map_counterexample :
    ¬ (check_rooms_stable cfgEx ([] : List (String × RoomState)) = true ↔
        ∀ p ∈ ([] : List (String × RoomState)), ∃ c t,
          p.2.current_temperature = some c ∧ p.2.target_temperature = some t ∧
          |c - t| ≤ cfgEx.temperature_deadband) := by
  intro h
  have h2 := h.mpr (by intro p hp; cases hp)
  simp [check_rooms_stable] at h2

/-- C6, amended: for every *non-empty* room-state map the stability
check returns `True` iff every room has a valid current temperature (and
target) with `|current − target| ≤ deadband`; the empty map yields
`False`. -/
theorem c6_rooms_stable_iff (cfg : OptimizerConfig)
    (states : List (String × RoomState)) (h : states ≠ []) :
    check_rooms_stable cfg states = true ↔
      ∀ p ∈ states, ∃ c t, p.2.current_temperature = some c ∧
        p.2.target_temperature = some t ∧ |c - t| ≤ cfg.temperature_deadband := by
  cases states with
  | nil => exact absurd rfl h
  | cons a l =>
      simp only [check_rooms_stable, List.all_eq_true]
      constructor
      · intro hall p hp
        exact (stable_entry_iff cfg p.2).mp (hall p hp)
      · intro hall p hp
        exact (stable_entry_iff cfg p.2).mpr (hall p hp)

/-- C6 witness: the spec's example — rooms at 21.8 and 22.3 °C with
target 22.0 and deadband 0.5 — is stable. -/
theorem c6_rooms_stable_witness :
    check_rooms_stable cfgEx [("a", roomAt (218/10)), ("b", roomAt (223/10))] = true := by
  refine (c6_rooms_stable_iff cfgEx _ (by simp)).mpr ?_
  intro p hp
  fin_cases hp
  · exact ⟨218/10, 22, rfl, rfl, by rw [abs_le]; constructor <;> norm_num [cfgEx]⟩
  · exact ⟨223/10, 22, rfl, rfl, by rw [abs_le]; constructor <;> norm_num [cfgEx]⟩

/-- C7, counterexample: `OptimizerConfig.hvac_mode` is *not* immutable.
With humidity control enabled, `_set_hvac_mode` reassigns
`self.hvac_mode` at optimizer.py line 1442: a configuration constructed
with mode `"cool"`, a main climate entity currently in `"cool"` that
supports `"dry"`, and an advisory `hvac_mode` recommendation `"dry"`
leaves the instance with `hvac_mode = "dry"`. -/
theorem c7_hvac_mode_mutation_counterexample :
    (set_hvac_mode cfgEx (some ⟨some "cool", ["cool", "dry"]⟩) "dry").1.hvac_mode = "dry"
    ∧ cfgEx.hvac_mode = "cool" := ⟨rfl, rfl⟩

/-- C7, amended: every OptimizerConfig field *except* `hvac_mode` is
preserved by `_set_hvac_mode` (the only modelled operation that writes
the configuration at all); `hvac_mode` either stays unchanged or becomes
the recommended mode, the latter only when a main climate entity is
configured, found, not already in that mode, and advertising it as
supported. -/
theorem c7_config_frame (cfg : OptimizerConfig) (cs : Option ClimateState) (mode : String) :
    (set_hvac_mode cfg cs mode).1.target_temperature = cfg.target_temperature
    ∧ (set_hvac_mode cfg cs mode).1.temperature_deadband = cfg.temperature_deadband
    ∧ (set_hvac_mode cfg cs mode).1.ac_turn_on_threshold = cfg.ac_turn_on_threshold
    ∧ (set_hvac_mode cfg cs mode).1.ac_turn_off_threshold = cfg.ac_turn_off_threshold
    ∧ (set_hvac_mode cfg cs mode).1.main_fan_high_threshold = cfg.main_fan_high_threshold
    ∧ (set_hvac_mode cfg cs mode).1.main_fan_medium_threshold = cfg.main_fan_medium_threshold
    ∧ (set_hvac_mode cfg cs mode).1.main_climate_entity = cfg.main_climate_entity
    ∧ (set_hvac_mode cfg cs mode).1.enable_humidity_control = cfg.enable_humidity_control
    ∧ (set_hvac_mode cfg cs mode).1.enable_scheduling = cfg.enable_scheduling
    ∧ (set_hvac_mode cfg cs mode).1.auto_control_ac_temperature = cfg.auto_control_ac_temperature
    ∧ ((set_hvac_mode cfg cs mode).1.hvac_mode = cfg.hvac_mode
        ∨ (set_hvac_mode cfg cs mode).1.hvac_mode = mode) := by
  unfold set_hvac_mode
  split
  · simp
  · cases cs with
    | none => simp
    | some c =>
        by_cases h1 : c.hvac_mode = some mode
        · simp [h1]
        · by_cases h2 : mode ∈ c.hvac_modes <;> simp [h1, h2]

/-- C8, counterexample: the collector does not clamp the cover position:
a cover entity reporting `current_position = 150` produces a RoomState
with `cover_position = 150`, outside [0,100] (optimizer.py lines
548-563 convert with `int(...)` and no clamp). -/
theorem c8_cover_position_counterexample :
    (collect_room_state 22 (.val 23) "°C" (.val 150) .missing).cover_position = 150
    ∧ ¬ ((collect_room_state 22 (.val 23) "°C" (.val 150) .missing).cover_position ≤ 100) := by
  refine ⟨by decide, by decide⟩

/-- C8, amended: the collector stores the default 100 whenever the
cover entity or its position attribute is missing, a sentinel
(unavailable/unknown/none), or non-numeric; a numeric report is stored
truncated, unclamped — hence `cover_position ∈ [0,100]` holds exactly
when the entity's report lies in [0,100]. -/
theorem c8_cover_position_default (target : ℚ) (tempR : Reading) (unit : String)
    (coverR : Reading) (humR : Reading) :
    ((coverR = .missing ∨ coverR = .sentinel ∨ coverR = .nonNumeric) →
        (collect_room_state target tempR unit coverR humR).cover_position = 100)
    ∧ (∀ q, coverR = .val q →
        (collect_room_state target tempR unit coverR humR).cover_position = truncInt q
        ∧ (0 ≤ q → q ≤ 100 →
            0 ≤ (collect_room_state target tempR unit coverR humR).cover_position
            ∧ (collect_room_state target tempR unit coverR humR).cover_position ≤ 100)) := by
  constructor
  · rintro (rfl | rfl | rfl) <;> rfl
  · rintro q rfl
    refine ⟨rfl, ?_⟩
    intro h0 h100
    simp only [collect_room_state, read_cover_position, truncInt, if_pos h0]
    constructor
    · exact Int.le_floor.mpr (by exact_mod_cast h0)
    · calc ⌊q⌋ ≤ ⌊(100 : ℚ)⌋ := Int.floor_le_floor h100
        _ = 100 := by norm_num

/-- C8 witness: a missing cover entity yields the default position
100. -/
theorem c8_cover_position_default_witness :
    (collect_room_state 22 (.val 23) "°C" .missing .missing).cover_position = 100 :=
  (c8_cover_position_default 22 (.val 23) "°C" .missing .missing).1 (Or.inl rfl)

/-- C9: with at least one valid reading, the main-fan tier is `low`
whenever spread (max−min) ≤ 1.0 °C and the mean absolute deviation from
the effective target ≤ 0.5 °C, regardless of mode (checked first);
otherwise in cool mode it is `high` whenever the mean signed deviation
is ≥ the configured high threshold (equality included) or the maximum
signed deviation is ≥ 3 °C with spread ≥ 2 °C, `low` under the code's
stated low conditions, and `medium` otherwise (optimizer.py lines
1005-1080). -/
theorem c9_main_fan_tier_cool (cfg : OptimizerConfig) (states : List (String × RoomState))
    (t0 : ℚ) (ts : List ℚ) (h : validTemps states = t0 :: ts) :
    ((ts.foldl max t0 - ts.foldl min t0 ≤ 1
        ∧ |(t0 :: ts).sum / ((t0 :: ts).length : ℚ) - effectiveTarget cfg states| ≤ 1/2) →
      determine_main_fan_speed cfg states = "low")
    ∧ (cfg.hvac_mode = "cool" →
        ¬(ts.foldl max t0 - ts.foldl min t0 ≤ 1
            ∧ |(t0 :: ts).sum / ((t0 :: ts).length : ℚ) - effectiveTarget cfg states| ≤ 1/2) →
        ((cfg.main_fan_high_threshold
              ≤ (t0 :: ts).sum / ((t0 :: ts).length : ℚ) - effectiveTarget cfg states
            ∨ (3 ≤ ts.foldl max t0 - effectiveTarget cfg states
                ∧ 2 ≤ ts.foldl max t0 - ts.foldl min t0)) →
          determine_main_fan_speed cfg states = "high")
        ∧ (¬(cfg.main_fan_high_threshold
              ≤ (t0 :: ts).sum / ((t0 :: ts).length : ℚ) - effectiveTarget cfg states
            ∨ (3 ≤ ts.foldl max t0 - effectiveTarget cfg states
                ∧ 2 ≤ ts.foldl max t0 - ts.foldl min t0)) →
            ((t0 :: ts).sum / ((t0 :: ts).length : ℚ) - effectiveTarget cfg states ≤ -(1/2)
              ∨ ((t0 :: ts).sum / ((t0 :: ts).length : ℚ) - effectiveTarget cfg states
                    < cfg.main_fan_medium_threshold
                  ∧ ts.foldl max t0 - effectiveTarget cfg states < 2)) →
            determine_main_fan_speed cfg states = "low")
        ∧ (¬(cfg.main_fan_high_threshold
              ≤ (t0 :: ts).sum / ((t0 :: ts).length : ℚ) - effectiveTarget cfg states
            ∨ (3 ≤ ts.foldl max t0 - effectiveTarget cfg states
                ∧ 2 ≤ ts.foldl max t0 - ts.foldl min t0)) →
            ¬((t0 :: ts).sum / ((t0 :: ts).length : ℚ) - effectiveTarget cfg states ≤ -(1/2)
              ∨ ((t0 :: ts).sum / ((t0 :: ts).length : ℚ) - effectiveTarget cfg states
                    < cfg.main_fan_medium_threshold
                  ∧ ts.foldl max t0 - effectiveTarget cfg states < 2)) →
            determine_main_fan_speed cfg states = "medium")) := by
  constructor
  · intro heq
    simp only [determine_main_fan_speed, h]
    rw [if_pos heq]
  · intro hmode hneq
    refine ⟨?_, ?_, ?_⟩
    · intro hhigh
      simp only [determine_main_fan_speed, h, hmode]
      rw [if_neg hneq, if_pos trivial, if_pos hhigh]
    · intro hnhigh hlow
      simp only [determine_main_fan_speed, h, hmode]
      rw [if_neg hneq, if_pos trivial, if_neg hnhigh, if_pos hlow]
    · intro hnhigh hnlow
      simp only [determine_main_fan_speed, h, hmode]
      rw [if_neg hneq, if_pos trivial, if_neg hnhigh, if_neg hnlow]

/-- C9 witness: the spec's boundary example — mean deviation exactly at
the configured high threshold (room at 24.5 °C, target 22.0, threshold
2.5) — yields `high`. -/
theorem c9_main_fan_tier_cool_witness :
    determine_main_fan_speed cfgEx [("a", roomAt (49/2))] = "high" := by
  have h := c9_main_fan_tier_cool cfgEx [("a", roomAt (49/2))] (49/2) []
    (by simp [validTemps, roomAt])
  refine (h.2 rfl ?_).1 ?_
  · intro hc
    have := hc.2
    rw [abs_le] at this
    have h2 := this.2
    norm_num [effectiveTarget, cfgEx, roomAt] at h2
  · left
    norm_num [effectiveTarget, cfgEx, roomAt]

/-- C10: a numeric temperature reading whose unit string is one the code
recognises as Fahrenheit (`"°F"`, `"fahrenheit"`, `"F"`) is stored in
the RoomState as exactly `(F − 32) * 5 / 9` Celsius; any other unit
string (recognised Celsius or unknown, the latter only warned about)
passes the value through unchanged; and the collector stores the
normalised value in `current_temperature` for downstream use
(optimizer.py lines 497-524, 594-602). -/
theorem c10_fahrenheit_conversion (v target : ℚ) (unit : String)
    (coverR humR : Reading) :
    ((unit = "°F" ∨ unit = "fahrenheit" ∨ unit = "F") →
        read_temperature (.val v) unit = some ((v - 32) * 5 / 9))
    ∧ (¬(unit = "°F" ∨ unit = "fahrenheit" ∨ unit = "F") →
        read_temperature (.val v) unit = some v)
    ∧ (collect_room_state target (.val v) unit coverR humR).current_temperature
        = some (convert_temperature_unit unit v) := by
  refine ⟨?_, ?_, rfl⟩
  · intro hf
    simp [read_temperature, convert_temperature_unit, hf]
  · intro hf
    simp [read_temperature, convert_temperature_unit, hf]

/-- C10 witness: 212 °F normalises to exactly 100 °C. -/
theorem c10_fahrenheit_conversion_witness :
    read_temperature (.val 212) "°F" = some 100 := by
  rw [(c10_fahrenheit_conversion 212 22 "°F" .missing .missing).1 (Or.inl rfl)]
  norm_num
